import Mathlib

/- Shallow embedding of the platformer runtime core of this repository
   (source/object_classes.py and source/player.py).  Pygame conventions:
   the y axis grows downward, so a negative velocity.y moves the entity up.
   pygame.Rect coordinates are integers in the source; velocities, the frame
   delta and timers are floats there and are modelled here with exact integer
   arithmetic (a product such as velocity.x * delta is the integer
   displacement the source truncates onto the integer rectangle; no claim
   under study depends on fractional values).  The invincibility threshold
   0.7 seconds is represented in tenths of a second, so it is the exact
   integer 7 in the same abstracted time unit as time_since_hit. -/

/-- Axis-aligned rectangle, embedding pygame.Rect: x, y is the top-left
corner, w and h the extents.  right = x + w, bottom = y + h, top = y. -/
structure Rect where
  x : Int
  y : Int
  w : Int
  h : Int
  deriving DecidableEq

/-- Embedding of pygame Rect.move: a copy of the rectangle displaced by
dx, dy. -/
def Rect.move (r : Rect) (dx dy : Int) : Rect :=
  { x := r.x + dx, y := r.y + dy, w := r.w, h := r.h }

/-- Right edge of a rectangle (pygame Rect.right). -/
def Rect.right (r : Rect) : Int := r.x + r.w

/-- Bottom edge of a rectangle (pygame Rect.bottom; y grows downward). -/
def Rect.bottom (r : Rect) : Int := r.y + r.h

/-- Embedding of pygame Rect.colliderect: strict axis overlap on both axes;
rectangles of zero width or height never collide. -/
def Rect.colliderect (a b : Rect) : Bool :=
  decide (0 < a.w) && decide (0 < a.h) && decide (0 < b.w) && decide (0 < b.h) &&
  decide (a.x < b.x + b.w) && decide (b.x < a.x + a.w) &&
  decide (a.y < b.y + b.h) && decide (b.y < a.y + a.h)

/-- MovingObject.does_collide: whether the rectangle collides with any of the
given static objects (each static collider is represented by its rect). -/
def does_collide (r : Rect) (objects : List Rect) : Bool :=
  objects.any (fun o => r.colliderect o)

/-- MovingObject.is_grounded: probe the hitbox moved down by one unit against
the static colliders. -/
def is_grounded (r : Rect) (objects : List Rect) : Bool :=
  does_collide (r.move 0 1) objects

/-- Two-dimensional vector (pygame.math.Vector2). -/
structure V2 where
  x : Int
  y : Int
  deriving DecidableEq

/-- State of a MovingObject: hitbox rect, velocity, the gravity flag set in
MovingObject.__init__, and the per-frame has_collided flag. -/
structure MovingState where
  rect : Rect
  velocity : V2
  gravity : Bool
  has_collided : Bool
  deriving DecidableEq

/-- The x-axis preview rectangle of MovingObject.update: the hitbox moved by
velocity.x * delta + 1 when velocity.x > 0, and by exactly -1 otherwise. -/
def previewRectX (delta : Int) (s : MovingState) : Rect :=
  s.rect.move (if 0 < s.velocity.x then s.velocity.x * delta + 1 else -1) 0

/-- The x-axis phase of MovingObject.update: if the preview rect is free of
static collisions the full displacement velocity.x * delta is applied,
otherwise the rect is left in place and has_collided is set. -/
def stepX (delta : Int) (s : MovingState) (statics : List Rect) : MovingState :=
  if does_collide (previewRectX delta s) statics then { s with has_collided := true }
  else { s with rect := s.rect.move (s.velocity.x * delta) 0 }

/-- The y-axis phase of MovingObject.update: add 50 to velocity.y unless the
entity is grounded, then either move by velocity.y * delta (preview free) or
zero the vertical velocity (preview collides). -/
def stepY (delta : Int) (s : MovingState) (statics : List Rect) : MovingState :=
  let vy := if is_grounded s.rect statics then s.velocity.y else s.velocity.y + 50
  let previewY := s.rect.move 0 (vy * delta)
  if does_collide previewY statics then { s with velocity := ⟨s.velocity.x, 0⟩ }
  else { s with velocity := ⟨s.velocity.x, vy⟩, rect := previewY }

/-- MovingObject.update from source/object_classes.py: x axis first, then
gravity and the y axis. -/
def update (delta : Int) (s : MovingState) (statics : List Rect) : MovingState :=
  stepY delta (stepX delta s statics) statics

/-- The x branch of MovingObject.update detects a collision (the branch that
sets has_collided): mirrors the condition of the if in the x-axis phase. -/
def xResolves (delta : Int) (s : MovingState) (statics : List Rect) : Bool :=
  does_collide (previewRectX delta s) statics

/-- The y branch of MovingObject.update detects a collision (the branch that
zeroes velocity.y): mirrors the condition of the if in the y-axis phase,
evaluated on the state produced by the x-axis phase. -/
def yResolves (delta : Int) (s : MovingState) (statics : List Rect) : Bool :=
  let s1 := stepX delta s statics
  let vy := if is_grounded s1.rect statics then s1.velocity.y else s1.velocity.y + 50
  does_collide (s1.rect.move 0 (vy * delta)) statics

/-- Player movement states (player.py, class Player.State). -/
inductive PState where
  | IDLE
  | RUN
  | JUMP
  | FALL
  | DUCK
  | DEAD
  deriving DecidableEq

/-- Reason carried by the PLAYER_DIED notification posted by
Player.on_player_death. -/
inductive DeathReason where
  | hitByEnemy
  | fellOutOfBounds
  deriving DecidableEq

/-- Player state from player.py.  Animation and sound handles are
presentation-only and omitted; the "Yayy, you won!" output of the BABEL
branch of on_pickup_letter is recorded as the Boolean field won, and the
PLAYER_DIED events posted by on_player_death are recorded in deaths.
time_since_hit and invincibility_time are in tenths of a second (the
source's 0.7 becomes 7). -/
structure Player where
  rect : Rect
  velocity : V2
  letters_collected : List Char
  player_lives : Int
  bounce_velocity_x : Int
  time_since_hit : Int
  invincibility_time : Int
  current_direction : Int
  state : PState
  is_jump_unlocked : Bool
  is_crouch_unlocked : Bool
  won : Bool
  deaths : List DeathReason
  deriving DecidableEq

/-- Player.__init__ from player.py: the freshly constructed player at the
given hitbox rectangle (the rectangle itself is derived externally from the
hitbox image's bounding box). -/
def mkPlayer (r : Rect) : Player :=
  { rect := r, velocity := ⟨0, 0⟩, letters_collected := [], player_lives := 3,
    bounce_velocity_x := 0, time_since_hit := 0, invincibility_time := 7,
    current_direction := 1, state := .IDLE, is_jump_unlocked := false,
    is_crouch_unlocked := false, won := false, deaths := [] }

/-- Player.on_player_death: lives set to 0, state forced to DEAD, and a
PLAYER_DIED event (with the reason) posted.  The on_state_changed animation
hook is presentation-only and omitted. -/
def onPlayerDeath (p : Player) (reason : DeathReason) : Player :=
  { p with player_lives := 0, state := .DEAD, deaths := p.deaths ++ [reason] }

/-- Player.on_hit_by_enemy from player.py.  The enemy argument of the source
is unused in the body and omitted; direction is the enemy's
current_direction.  Note the guard of the source is time_since_hit != 0.0:
the knockback branch runs only when time_since_hit is nonzero.  The
print of "Aua" in the lives-remain branch has no state effect. -/
def onHitByEnemy (p : Player) (direction : Int) : Player :=
  if p.time_since_hit ≠ 0 then
    let p1 := { p with bounce_velocity_x := direction * 250,
                       velocity := ⟨p.velocity.x, -300⟩ }
    if 1 < p1.player_lives then p1
    else onPlayerDeath p1 .hitByEnemy
  else p

/-- Player.on_pickup_letter from player.py: reject when 5 letters are already
held, else append, compare the upper-cased joined word against JUMP, DUCK
and BABEL (the Python match statement), clear the letters when
word_completed was set, and return True. -/
def onPickupLetter (p : Player) (letter : Char) : Player × Bool :=
  if 5 ≤ p.letters_collected.length then (p, false)
  else
    let letters := p.letters_collected ++ [letter]
    let word : String := ⟨letters.map Char.toUpper⟩
    let p1 := { p with letters_collected := letters }
    let step :=
      if word = "JUMP" then ({ p1 with is_jump_unlocked := true }, true)
      else if word = "DUCK" then ({ p1 with is_crouch_unlocked := true }, true)
      else if word = "BABEL" then ({ p1 with won := true }, false)
      else (p1, false)
    (if step.2 then { step.1 with letters_collected := [] } else step.1, true)

/-- Folding a sequence of letter pickups (the Boolean result of each call is
discarded, as LetterPickUp.on_collide does). -/
def pickupAll (p : Player) (cs : List Char) : Player :=
  cs.foldl (fun q c => (onPickupLetter q c).1) p

/-- Kind of an interactable object of the world list: a LetterPickUp carrying
its letter, or an Enemy carrying its current_direction. -/
inductive ObjKind where
  | letterPickUp (letter : Char)
  | enemy (current_direction : Int)
  deriving DecidableEq

/-- An interactable object: an identifier (standing for Python object
identity), its hitbox rect and its kind. -/
structure Interactable where
  id : Nat
  rect : Rect
  kind : ObjKind
  deriving DecidableEq

/-- The on_collide reaction of an interactable object, returning the updated
player and whether the object removed itself from the world's interactable
list.  LetterPickUp.on_collide reports its letter and always removes itself;
Enemy.on_collide (threshold 5) removes itself exactly on the stomp
condition, in which case it also sets the player's velocity to (0, -250)
and clears bounce_velocity_x; otherwise it calls player.on_hit_by_enemy
with its current_direction. -/
def onCollide (p : Player) (o : Interactable) : Player × Bool :=
  match o.kind with
  | .letterPickUp c => ((onPickupLetter p c).1, true)
  | .enemy dir =>
      if p.velocity.y < 0 ∧ p.rect.bottom ≤ o.rect.y + 5 then
        ({ p with velocity := ⟨0, -250⟩, bounce_velocity_x := 0 }, true)
      else
        (onHitByEnemy p dir, false)

/-- The loop of Player.do_interaction: CPython iterates the interactable list
by index, so when the object at the current index removes itself (pygame
list.remove removes the one element identical to self; world objects are
distinct, so this is the element at the current index, modelled by
eraseIdx) the following element shifts into its slot and the iterator then
advances past it.  Returns the final player, the final list, the ids whose
overlap with the player was tested, and the ids whose on_collide ran.  The
fuel argument bounds the number of loop iterations; do_interaction supplies
the initial list length, which is sufficient since the index grows by one
per iteration and the list never grows. -/
def doInteractionAux : Nat → Nat → Player → List Interactable →
    Player × List Interactable × List Nat × List Nat
  | 0, _, p, l => (p, l, [], [])
  | fuel + 1, i, p, l =>
    match l[i]? with
    | none => (p, l, [], [])
    | some o =>
      if p.rect.colliderect o.rect then
        let r := onCollide p o
        let l1 := if r.2 then l.eraseIdx i else l
        let rest := doInteractionAux fuel (i + 1) r.1 l1
        (rest.1, rest.2.1, o.id :: rest.2.2.1, o.id :: rest.2.2.2)
      else
        let rest := doInteractionAux fuel (i + 1) p l
        (rest.1, rest.2.1, o.id :: rest.2.2.1, rest.2.2.2)

/-- Player.do_interaction from player.py: scan the world's interactable list
from the start. -/
def doInteraction (p : Player) (l : List Interactable) :
    Player × List Interactable × List Nat × List Nat :=
  doInteractionAux l.length 0 p l

/-- The y-axis phase never changes the x coordinate of the hitbox. -/
theorem stepY_rect_x (delta : Int) (s : MovingState) (statics : List Rect) :
    (stepY delta s statics).rect.x = s.rect.x := by
  unfold stepY
  dsimp only
  split <;> split <;> simp [Rect.move]

/-- The y-axis phase never changes the has_collided flag. -/
theorem stepY_has_collided (delta : Int) (s : MovingState) (statics : List Rect) :
    (stepY delta s statics).has_collided = s.has_collided := by
  unfold stepY
  dsimp only
  split <;> split <;> rfl

/-- The x-axis phase never changes the velocity. -/
theorem stepX_velocity (delta : Int) (s : MovingState) (statics : List Rect) :
    (stepX delta s statics).velocity = s.velocity := by
  unfold stepX
  split <;> rfl

/-- MovingObject.update never reads the gravity flag: two states differing
only in that flag produce the same rectangle and the same velocity. -/
theorem update_gravity_irrelevant (delta : Int) (statics : List Rect) (r : Rect)
    (v : V2) (hc b1 b2 : Bool) :
    (update delta ⟨r, v, b1, hc⟩ statics).rect = (update delta ⟨r, v, b2, hc⟩ statics).rect ∧
    (update delta ⟨r, v, b1, hc⟩ statics).velocity = (update delta ⟨r, v, b2, hc⟩ statics).velocity := by
  unfold update stepX stepY previewRectX is_grounded
  dsimp only
  split <;> split <;> simp_all <;> split <;> split <;> simp_all

/-- Dropping past an erased index: erasing position i and then dropping i + 1
elements is dropping i + 2 elements of the original list. -/
theorem eraseIdx_drop_succ {α : Type} (l : List α) (i : Nat) (h : i < l.length) :
    (l.eraseIdx i).drop (i + 1) = l.drop (i + 2) := by
  rw [List.eraseIdx_eq_take_drop_succ]
  have ht : (l.take i).length = i := by
    rw [List.length_take]
    omega
  rw [← List.drop_drop 1 i, List.drop_left' ht, List.drop_drop]

/-- Membership in the image of a longer drop implies membership in the image
of a shorter drop. -/
theorem drop_map_mem_mono {α β : Type} (f : α → β) (l : List α) (m n : Nat) (h : m ≤ n)
    (x : β) (hx : x ∈ (l.drop n).map f) : x ∈ (l.drop m).map f := by
  rcases List.mem_map.mp hx with ⟨a, ha, rfl⟩
  exact List.mem_map.mpr ⟨a, List.drop_subset_drop_left l h ha, rfl⟩

/-- Every id whose overlap the interaction loop tests from index i onward
belongs to an object at index at least i of the current list. -/
theorem doInteractionAux_tested_subset (fuel : Nat) :
    ∀ (i : Nat) (p : Player) (l : List Interactable) (x : Nat),
      x ∈ (doInteractionAux fuel i p l).2.2.1 → x ∈ (l.drop i).map (fun o => o.id) := by
  induction fuel with
  | zero =>
    intro i p l x hx
    simp [doInteractionAux] at hx
  | succ fuel ih =>
    intro i p l x hx
    cases hg : l[i]? with
    | none => simp [doInteractionAux, hg] at hx
    | some o =>
      have hmem : o ∈ l.drop i := by
        have h0 : (l.drop i)[0]? = some o := by
          rw [List.getElem?_drop]
          simpa using hg
        exact List.getElem?_mem h0
      have hlen : i < l.length := by
        rcases List.getElem?_eq_some_iff.mp hg with ⟨h1, _⟩
        exact h1
      by_cases hc : p.rect.colliderect o.rect = true
      · simp only [doInteractionAux, hg, hc, if_true] at hx
        simp only [List.mem_cons] at hx
        rcases hx with rfl | hx
        · exact List.mem_map.mpr ⟨o, hmem, rfl⟩
        · by_cases hr : (onCollide p o).2 = true
          · simp only [hr, if_true] at hx
            have hrec := ih (i + 1) (onCollide p o).1 (l.eraseIdx i) x hx
            rw [eraseIdx_drop_succ l i hlen] at hrec
            exact drop_map_mem_mono (fun o => o.id) l i (i + 2) (by omega) x hrec
          · simp only [hr, if_false, Bool.false_eq_true] at hx
            have hrec := ih (i + 1) (onCollide p o).1 l x hx
            exact drop_map_mem_mono (fun o => o.id) l i (i + 1) (by omega) x hrec
      · simp only [doInteractionAux, hg, hc, if_false, Bool.false_eq_true] at hx
        simp only [List.mem_cons] at hx
        rcases hx with rfl | hx
        · exact List.mem_map.mpr ⟨o, hmem, rfl⟩
        · have hrec := ih (i + 1) p l x hx
          exact drop_map_mem_mono (fun o => o.id) l i (i + 1) (by omega) x hrec

/-- Every id whose on_collide the interaction loop runs was also tested. -/
theorem doInteractionAux_invoked_subset (fuel : Nat) :
    ∀ (i : Nat) (p : Player) (l : List Interactable) (x : Nat),
      x ∈ (doInteractionAux fuel i p l).2.2.2 → x ∈ (doInteractionAux fuel i p l).2.2.1 := by
  induction fuel with
  | zero =>
    intro i p l x hx
    simp [doInteractionAux] at hx
  | succ fuel ih =>
    intro i p l x hx
    cases hg : l[i]? with
    | none => simp [doInteractionAux, hg] at hx ⊢
    | some o =>
      by_cases hc : p.rect.colliderect o.rect = true
      · simp only [doInteractionAux, hg, hc, if_true] at hx ⊢
        simp only [List.mem_cons] at hx ⊢
        rcases hx with rfl | hx
        · exact Or.inl rfl
        · exact Or.inr (ih _ _ _ x hx)
      · simp only [doInteractionAux, hg, hc, if_false, Bool.false_eq_true] at hx ⊢
        simp only [List.mem_cons]
        exact Or.inr (ih _ _ _ x hx)

/-- The vertical velocity produced by the y-axis phase, in closed form: zero
when the y preview collides, otherwise the input velocity plus 50 exactly
when the entity is not grounded and the input velocity unchanged when it
is. -/
theorem stepY_velocity_y (delta : Int) (s : MovingState) (statics : List Rect) :
    (stepY delta s statics).velocity.y =
      if does_collide (s.rect.move 0
          ((if is_grounded s.rect statics then s.velocity.y else s.velocity.y + 50) * delta))
          statics then 0
      else if is_grounded s.rect statics then s.velocity.y
      else s.velocity.y + 50 := by
  unfold stepY
  dsimp only
  split <;> split <;> rfl

/-- The vertical velocity after a whole MovingObject.update step, in closed
form over the entity's original velocity (the x-axis phase preserves the
velocity): zero when the y preview collides, otherwise velocity.y + 50
exactly when the entity is not grounded after the x move, and velocity.y
unchanged when it is grounded. -/
theorem update_velocity_y_char (delta : Int) (s : MovingState) (statics : List Rect) :
    (update delta s statics).velocity.y =
      if does_collide ((stepX delta s statics).rect.move 0
          ((if is_grounded (stepX delta s statics).rect statics then s.velocity.y
            else s.velocity.y + 50) * delta)) statics then 0
      else if is_grounded (stepX delta s statics).rect statics then s.velocity.y
      else s.velocity.y + 50 := by
  have hv := stepX_velocity delta s statics
  unfold update
  rw [stepY_velocity_y, hv]

/-- A hit that passes the guard of on_hit_by_enemy leaves a player with three
lives at three lives, with no death event and no state change. -/
theorem onHitByEnemy_lives_three (p : Player) (d : Int) (h : p.player_lives = 3) :
    (onHitByEnemy p d).player_lives = 3 ∧
    (onHitByEnemy p d).deaths = p.deaths ∧
    (onHitByEnemy p d).state = p.state := by
  unfold onHitByEnemy
  dsimp only
  split
  · simp [h]
  · simp [h]

/-- C1: the claim (and the specification) state that on_hit_by_enemy applies
knockback if and only if time_since_hit == 0 at the call.  The source code
has the guard inverted (time_since_hit != 0.0): evaluating the embedded
code shows that a hit at time_since_hit = 0 changes no player state at all,
while a second hit mid-window (time_since_hit = 3 tenths, nonzero and below
the invincibility threshold of 7 tenths) re-applies the full knockback
(bounce_velocity_x = direction * 250, velocity.y = -300).  The claim
describes the evident intent of the invincibility window; the code is the
slip. -/
theorem C1_hit_guard_inverted_eval :
    onHitByEnemy (mkPlayer ⟨100, 100, 16, 16⟩) 1 = mkPlayer ⟨100, 100, 16, 16⟩ ∧
    (mkPlayer ⟨100, 100, 16, 16⟩).time_since_hit = 0 ∧
    (onHitByEnemy { mkPlayer ⟨100, 100, 16, 16⟩ with
        time_since_hit := 3 } 1).bounce_velocity_x = 250 ∧
    (onHitByEnemy { mkPlayer ⟨100, 100, 16, 16⟩ with
        time_since_hit := 3 } 1).velocity.y = -300 ∧
    (3 : Int) ≠ 0 ∧ (3 : Int) < 7 := by
  decide

/-- C2, counterexample: an entity at x = 0 (width 10) moving right with
displacement 5 against an obstacle at x = 12 takes the collision branch of
MovingObject.update (the preview moved by 5 + 1 overlaps the obstacle), yet
the hitbox is not clamped to the obstacle's facing edge as the claim
states: the rect stays at x = 0 (right edge 10), it is not written back
with right = obstacle.left = 12. -/
theorem C2_no_clamp_counterexample :
    does_collide (previewRectX 1 ⟨⟨0, 0, 10, 10⟩, ⟨5, 0⟩, true, false⟩)
      [⟨12, 0, 10, 10⟩] = true ∧
    (update 1 ⟨⟨0, 0, 10, 10⟩, ⟨5, 0⟩, true, false⟩ [⟨12, 0, 10, 10⟩]).rect.x = 0 ∧
    (update 1 ⟨⟨0, 0, 10, 10⟩, ⟨5, 0⟩, true, false⟩
      [⟨12, 0, 10, 10⟩]).rect.right ≠ (12 : Int) := by
  decide

/-- C2, amended: when the horizontal preview rectangle of MovingObject.update
collides with a static collider, no clamping to the obstacle's facing edge
takes place: the x position is left entirely unchanged (the tentative move
is simply not applied) and has_collided is set to true. -/
theorem C2_horizontal_block (delta : Int) (s : MovingState) (statics : List Rect)
    (h : does_collide (previewRectX delta s) statics = true) :
    (update delta s statics).rect.x = s.rect.x ∧
    (update delta s statics).has_collided = true := by
  unfold update
  rw [stepY_rect_x, stepY_has_collided]
  unfold stepX
  rw [h]
  simp

/-- C2, witness: the amended theorem applied at the concrete blocked
rightward move of the counterexample. -/
theorem C2_horizontal_block_witness :
    (update 1 ⟨⟨0, 0, 10, 10⟩, ⟨5, 0⟩, true, false⟩ [⟨12, 0, 10, 10⟩]).rect.x = 0 ∧
    (update 1 ⟨⟨0, 0, 10, 10⟩, ⟨5, 0⟩, true, false⟩ [⟨12, 0, 10, 10⟩]).has_collided = true :=
  C2_horizontal_block 1 ⟨⟨0, 0, 10, 10⟩, ⟨5, 0⟩, true, false⟩ [⟨12, 0, 10, 10⟩] (by decide)

/-- C3, counterexample: an entity at x = 10 (width 10) with purely horizontal
velocity -12, initially not overlapping the single static collider at
x = 0 (width 5, height 100), passes the fixed 1-unit left probe, moves the
full 12 units to x = -2 inside the collider, and then the y branch of the
same update step resolves a collision against that collider (yResolves is
true, velocity.y is zeroed), so the frame ends with the hitbox overlapping
the collider the step resolved against: the claimed non-penetration
invariant fails for horizontal motion. -/
theorem C3_tunnel_counterexample :
    (⟨⟨10, 0, 10, 10⟩, ⟨-12, 0⟩, true, false⟩ : MovingState).velocity.y = 0 ∧
    Rect.colliderect (⟨10, 0, 10, 10⟩ : Rect) ⟨0, 0, 5, 100⟩ = false ∧
    yResolves 1 ⟨⟨10, 0, 10, 10⟩, ⟨-12, 0⟩, true, false⟩ [⟨0, 0, 5, 100⟩] = true ∧
    Rect.colliderect (update 1 ⟨⟨10, 0, 10, 10⟩, ⟨-12, 0⟩, true, false⟩ [⟨0, 0, 5, 100⟩]).rect
      ⟨0, 0, 5, 100⟩ = true := by
  decide

/-- C3, amended: the non-penetration invariant holds for purely vertical
velocity: against a single static collider, an entity whose velocity.x is
zero and whose hitbox does not overlap the collider before
MovingObject.update still does not overlap it afterwards (the horizontal
case fails, by the counterexample, because the 1-unit left probe does not
cover the full displacement). -/
theorem C3_vertical_no_penetration (delta : Int) (s : MovingState) (o : Rect)
    (hvx : s.velocity.x = 0) (h0 : Rect.colliderect s.rect o = false) :
    Rect.colliderect (update delta s [o]).rect o = false := by
  have hx : (stepX delta s [o]).rect = s.rect := by
    unfold stepX
    split
    · rfl
    · rw [hvx]
      simp [Rect.move]
  unfold update stepY
  dsimp only
  rw [hx]
  split <;> split
  all_goals try simpa using h0
  all_goals rename_i hfree
  all_goals simp only [does_collide, List.any_cons, List.any_nil, Bool.or_false] at hfree
  all_goals simpa using hfree

/-- C3, witness: the amended theorem applied to a falling entity above a
floor collider. -/
theorem C3_vertical_witness :
    Rect.colliderect (update 1 ⟨⟨0, 0, 10, 10⟩, ⟨0, -5⟩, true, false⟩ [⟨0, 30, 10, 10⟩]).rect
      ⟨0, 30, 10, 10⟩ = false :=
  C3_vertical_no_penetration 1 ⟨⟨0, 0, 10, 10⟩, ⟨0, -5⟩, true, false⟩ ⟨0, 30, 10, 10⟩ rfl
    (by decide)

/-- C4, counterexample: picking up B, A, B, E, L from a fresh player matches
the target word BABEL at the fifth call (the call is below capacity and the
upper-cased accumulated word equals BABEL), the win condition is signalled
(won = true), but letters_collected is NOT cleared to the empty sequence,
contrary to the claim: the source never sets word_completed in the BABEL
branch. -/
theorem C4_babel_not_cleared_counterexample :
    (pickupAll (mkPlayer ⟨100, 100, 16, 16⟩) [ 'B', 'A', 'B', 'E' ]).letters_collected.length < 5 ∧
    String.mk (((pickupAll (mkPlayer ⟨100, 100, 16, 16⟩) [ 'B', 'A', 'B', 'E' ]).letters_collected
      ++ [ 'L' ]).map Char.toUpper) = "BABEL" ∧
    (pickupAll (mkPlayer ⟨100, 100, 16, 16⟩) [ 'B', 'A', 'B', 'E', 'L' ]).won = true ∧
    (pickupAll (mkPlayer ⟨100, 100, 16, 16⟩) [ 'B', 'A', 'B', 'E', 'L' ]).letters_collected ≠ [] := by
  decide

/-- C4, amended: for a call of on_pickup_letter below capacity, the appended
sequence upper-cased is compared with the target words: JUMP unlocks jump
and clears the letters, DUCK unlocks crouch and clears the letters, BABEL
signals the win (won) but leaves the appended letters in place, and any
other word leaves the letters accumulating with no unlock; the call returns
true in all these cases.  In particular J, U, M, P sets is_jump_unlocked
and empties letters_collected, while J, U, M falls into the final case and
accumulates. -/
theorem C4_word_match (p : Player) (c : Char)
    (hlen : p.letters_collected.length < 5) :
    ((String.mk ((p.letters_collected ++ [c]).map Char.toUpper) = "JUMP") →
      onPickupLetter p c =
        ({ p with letters_collected := [], is_jump_unlocked := true }, true)) ∧
    ((String.mk ((p.letters_collected ++ [c]).map Char.toUpper) = "DUCK") →
      onPickupLetter p c =
        ({ p with letters_collected := [], is_crouch_unlocked := true }, true)) ∧
    ((String.mk ((p.letters_collected ++ [c]).map Char.toUpper) = "BABEL") →
      onPickupLetter p c =
        ({ p with letters_collected := p.letters_collected ++ [c], won := true }, true)) ∧
    ((String.mk ((p.letters_collected ++ [c]).map Char.toUpper) ≠ "JUMP") →
      (String.mk ((p.letters_collected ++ [c]).map Char.toUpper) ≠ "DUCK") →
      (String.mk ((p.letters_collected ++ [c]).map Char.toUpper) ≠ "BABEL") →
      onPickupLetter p c = ({ p with letters_collected := p.letters_collected ++ [c] }, true)) := by
  have hnot : ¬ 5 ≤ p.letters_collected.length := Nat.not_le.mpr hlen
  unfold onPickupLetter
  rw [if_neg hnot]
  dsimp only
  refine ⟨?_, ?_, ?_, ?_⟩
  · intro h
    rw [if_pos h]
    rfl
  · intro h
    have hJ : ¬ (("DUCK" : String) = "JUMP") := by decide
    rw [h, if_neg hJ, if_pos rfl]
    rfl
  · intro h
    have hJ : ¬ (("BABEL" : String) = "JUMP") := by decide
    have hD : ¬ (("BABEL" : String) = "DUCK") := by decide
    rw [h, if_neg hJ, if_neg hD, if_pos rfl]
    rfl
  · intro h1 h2 h3
    rw [if_neg h1, if_neg h2, if_neg h3]
    rfl

/-- C4, witness: after collecting J, U, M, picking up P completes JUMP,
unlocks jump and clears the collected letters. -/
theorem C4_word_match_witness :
    onPickupLetter (pickupAll (mkPlayer ⟨100, 100, 16, 16⟩) [ 'J', 'U', 'M' ]) 'P' =
      ({ pickupAll (mkPlayer ⟨100, 100, 16, 16⟩) [ 'J', 'U', 'M' ] with
          letters_collected := [], is_jump_unlocked := true }, true) :=
  (C4_word_match (pickupAll (mkPlayer ⟨100, 100, 16, 16⟩) [ 'J', 'U', 'M' ]) 'P'
    (by decide)).1 (by decide)

/-- C5, counterexample: an entity whose gravity flag is false and which is
not grounded still has 50 added to its vertical velocity by
MovingObject.update: the gravity increment is not gated on the gravity
flag (and no min with a maximum fall speed exists in the source: the
resulting velocity is exactly velocity.y + 50). -/
theorem C5_flag_ignored_counterexample :
    (⟨⟨0, 0, 10, 10⟩, ⟨0, 0⟩, false, false⟩ : MovingState).gravity = false ∧
    (update 1 ⟨⟨0, 0, 10, 10⟩, ⟨0, 0⟩, false, false⟩ []).velocity.y = 50 ∧
    (50 : Int) ≠ 0 := by
  decide

/-- C5, amended: the gravity application of MovingObject.update is
velocity.y + 50, uncapped, applied exactly when the entity is not grounded
and entirely independent of the gravity flag.  Four parts: states differing
only in the flag produce identical rectangles and velocities; the resulting
vertical velocity is characterized in closed form for every state (zero on a
blocked y preview, else velocity.y + 50 exactly when airborne and
velocity.y unchanged exactly when grounded); a grounded entity with a free
y preview gains no increment; an airborne entity with a free y preview
gains exactly 50, for every starting velocity (no maximum fall speed). -/
theorem C5_gravity_unconditional_uncapped (delta : Int) (statics : List Rect) :
    (∀ (r : Rect) (v : V2) (hc b1 b2 : Bool),
      (update delta ⟨r, v, b1, hc⟩ statics).rect = (update delta ⟨r, v, b2, hc⟩ statics).rect ∧
      (update delta ⟨r, v, b1, hc⟩ statics).velocity = (update delta ⟨r, v, b2, hc⟩ statics).velocity) ∧
    (∀ s : MovingState,
      (update delta s statics).velocity.y =
        if does_collide ((stepX delta s statics).rect.move 0
            ((if is_grounded (stepX delta s statics).rect statics then s.velocity.y
              else s.velocity.y + 50) * delta)) statics then 0
        else if is_grounded (stepX delta s statics).rect statics then s.velocity.y
        else s.velocity.y + 50) ∧
    (∀ s : MovingState,
      is_grounded (stepX delta s statics).rect statics = true →
      does_collide ((stepX delta s statics).rect.move 0 (s.velocity.y * delta)) statics = false →
      (update delta s statics).velocity.y = s.velocity.y) ∧
    (∀ s : MovingState,
      is_grounded (stepX delta s statics).rect statics = false →
      does_collide ((stepX delta s statics).rect.move 0 ((s.velocity.y + 50) * delta)) statics = false →
      (update delta s statics).velocity.y = s.velocity.y + 50) := by
  refine ⟨fun r v hc b1 b2 => update_gravity_irrelevant delta statics r v hc b1 b2,
    fun s => update_velocity_y_char delta s statics, ?_, ?_⟩
  · intro s hg hd
    rw [update_velocity_y_char delta s statics]
    simp [hg, hd]
  · intro s hg hd
    rw [update_velocity_y_char delta s statics]
    simp [hg, hd]

/-- C5, witness: an airborne entity with vertical velocity 7 and no statics
ends the step with vertical velocity 7 + 50 = 57, and a grounded entity
resting on a floor collider with vertical velocity 0 and a free y preview
ends the step with vertical velocity still 0 (no increment while
grounded). -/
theorem C5_gravity_witness :
    (update 1 ⟨⟨0, 0, 10, 10⟩, ⟨0, 7⟩, true, false⟩ []).velocity.y = 7 + 50 ∧
    (update 1 ⟨⟨0, 0, 10, 10⟩, ⟨0, 0⟩, true, false⟩ [⟨0, 10, 10, 10⟩]).velocity.y = 0 :=
  ⟨(C5_gravity_unconditional_uncapped 1 []).2.2.2 ⟨⟨0, 0, 10, 10⟩, ⟨0, 7⟩, true, false⟩
     (by decide) (by decide),
   (C5_gravity_unconditional_uncapped 1 [⟨0, 10, 10, 10⟩]).2.2.1
     ⟨⟨0, 0, 10, 10⟩, ⟨0, 0⟩, true, false⟩ (by decide) (by decide)⟩

/-- C6: Enemy.on_collide with the stomp condition (player.velocity.y < 0 and
the player's bottom edge at most the enemy's top edge plus 5) removes the
enemy (the removal flag that do_interaction uses to erase it from the
world's interactable list), gives the player the upward bounce velocity
(0, -250) and resets bounce_velocity_x to 0; for any other contact
geometry the enemy is not removed and player.on_hit_by_enemy is invoked
with the enemy's current_direction instead. -/
theorem C6_stomp_or_hit (p : Player) (i : Nat) (r : Rect) (d : Int) :
    (p.velocity.y < 0 ∧ p.rect.bottom ≤ r.y + 5 →
      onCollide p ⟨i, r, .enemy d⟩ =
        ({ p with velocity := ⟨0, -250⟩, bounce_velocity_x := 0 }, true)) ∧
    (¬(p.velocity.y < 0 ∧ p.rect.bottom ≤ r.y + 5) →
      onCollide p ⟨i, r, .enemy d⟩ = (onHitByEnemy p d, false)) := by
  constructor <;> intro h
  · unfold onCollide
    dsimp only
    rw [if_pos h]
  · unfold onCollide
    dsimp only
    rw [if_neg h]

/-- C6, witness: a player with velocity.y = -10 whose bottom edge (10) is
within 5 units of the enemy's top edge (12) stomps the enemy. -/
theorem C6_stomp_witness :
    onCollide { mkPlayer ⟨0, 0, 10, 10⟩ with velocity := ⟨3, -10⟩ } ⟨7, ⟨0, 12, 10, 10⟩, .enemy 1⟩ =
      ({ { mkPlayer ⟨0, 0, 10, 10⟩ with velocity := ⟨3, -10⟩ } with
          velocity := ⟨0, -250⟩, bounce_velocity_x := 0 }, true) :=
  (C6_stomp_or_hit { mkPlayer ⟨0, 0, 10, 10⟩ with velocity := ⟨3, -10⟩ } 7 ⟨0, 12, 10, 10⟩ 1).1
    (by decide)

/-- C7: a call of on_pickup_letter on a player already holding 5 letters
returns false and is a complete no-op on the player state (the function is
total: no exception path exists in the embedding). -/
theorem C7_capacity_reject (p : Player) (c : Char)
    (h : p.letters_collected.length = 5) :
    onPickupLetter p c = (p, false) := by
  unfold onPickupLetter
  rw [if_pos (by omega)]

/-- C7, witness: a sixth letter offered to a player holding A, B, C, D, E is
rejected unchanged. -/
theorem C7_capacity_reject_witness :
    onPickupLetter { mkPlayer ⟨100, 100, 16, 16⟩ with
        letters_collected := [ 'A', 'B', 'C', 'D', 'E' ] } 'F' =
      ({ mkPlayer ⟨100, 100, 16, 16⟩ with
        letters_collected := [ 'A', 'B', 'C', 'D', 'E' ] }, false) :=
  C7_capacity_reject
    { mkPlayer ⟨100, 100, 16, 16⟩ with letters_collected := [ 'A', 'B', 'C', 'D', 'E' ] }
    'F' (by decide)

/-- C8: no call of on_hit_by_enemy ever decrements player_lives: every call
leaves the lives unchanged or sets them to 0 (the commented-out decrement
means only on_player_death writes them); consequently, starting from the
initial 3 lives, any sequence of enemy hits leaves player_lives at 3 and
never triggers on_player_death (no death event is posted and the state
never changes), since the death branch requires player_lives at most 1. -/
theorem C8_lives_never_decremented :
    (∀ (p : Player) (d : Int),
      (onHitByEnemy p d).player_lives = p.player_lives ∨
      (onHitByEnemy p d).player_lives = 0) ∧
    (∀ (ds : List Int) (p : Player), p.player_lives = 3 →
      (ds.foldl onHitByEnemy p).player_lives = 3 ∧
      (ds.foldl onHitByEnemy p).deaths = p.deaths ∧
      (ds.foldl onHitByEnemy p).state = p.state) := by
  constructor
  · intro p d
    unfold onHitByEnemy onPlayerDeath
    dsimp only
    split
    · split
      · left
        rfl
      · right
        rfl
    · left
      rfl
  · intro ds
    induction ds with
    | nil => exact fun p h => ⟨h, rfl, rfl⟩
    | cons d ds ih =>
      intro p h
      have h1 := onHitByEnemy_lives_three p d h
      have h2 := ih (onHitByEnemy p d) h1.1
      rw [List.foldl_cons]
      exact ⟨h2.1, h2.2.1.trans h1.2.1, h2.2.2.trans h1.2.2⟩

/-- C8, witness: two consecutive mid-window hits on a fresh player leave the
lives at 3. -/
theorem C8_witness :
    ([1, -1].foldl onHitByEnemy { mkPlayer ⟨0, 0, 10, 10⟩ with time_since_hit := 3 }).player_lives = 3 :=
  (C8_lives_never_decremented.2 [1, -1]
    { mkPlayer ⟨0, 0, 10, 10⟩ with time_since_hit := 3 } rfl).1

/-- C9: in the do_interaction loop, when the object a at the current index
collides with the player and its on_collide removes it from the list (as a
LetterPickUp or a stomped Enemy does), the immediately following object b
(which shifts into a's slot) is skipped for the rest of the frame: its id
is never among the ids whose overlap is tested nor among those whose
on_collide is invoked, even if its rectangle intersects the player's hitbox
(the hypotheses only require that b is the follower and does not reappear
later in the list). -/
theorem C9_following_object_skipped (fuel i : Nat) (p : Player) (l : List Interactable)
    (a b : Interactable)
    (ha : l[i]? = some a) (hb : l[i + 1]? = some b)
    (hcol : p.rect.colliderect a.rect = true)
    (hrem : (onCollide p a).2 = true)
    (hne : b.id ≠ a.id)
    (hout : b.id ∉ (l.drop (i + 2)).map (fun o => o.id)) :
    b.id ∉ (doInteractionAux fuel i p l).2.2.1 ∧
    b.id ∉ (doInteractionAux fuel i p l).2.2.2 := by
  have hlen : i < l.length := by
    rcases List.getElem?_eq_some_iff.mp ha with ⟨h1, _⟩
    exact h1
  cases fuel with
  | zero => simp [doInteractionAux]
  | succ fuel =>
    constructor
    · intro hmem
      simp only [doInteractionAux, ha, hcol, hrem, if_true] at hmem
      simp only [List.mem_cons] at hmem
      rcases hmem with h | h
      · exact hne h
      · have hsub := doInteractionAux_tested_subset fuel (i + 1) (onCollide p a).1
          (l.eraseIdx i) b.id h
        rw [eraseIdx_drop_succ l i hlen] at hsub
        exact hout hsub
    · intro hmem
      simp only [doInteractionAux, ha, hcol, hrem, if_true] at hmem
      simp only [List.mem_cons] at hmem
      rcases hmem with h | h
      · exact hne h
      · have hinv := doInteractionAux_invoked_subset fuel (i + 1) (onCollide p a).1
          (l.eraseIdx i) b.id h
        have hsub := doInteractionAux_tested_subset fuel (i + 1) (onCollide p a).1
          (l.eraseIdx i) b.id hinv
        rw [eraseIdx_drop_succ l i hlen] at hsub
        exact hout hsub

/-- C9, witness: two overlapping letter pickups; the first removes itself and
the second (id 1) is neither tested nor invoked during the frame, although
its rectangle equals the player's. -/
theorem C9_witness :
    (1 : Nat) ∉ (doInteraction (mkPlayer ⟨100, 100, 16, 16⟩)
      [⟨0, ⟨100, 100, 16, 16⟩, .letterPickUp 'J'⟩,
       ⟨1, ⟨100, 100, 16, 16⟩, .letterPickUp 'U'⟩]).2.2.1 ∧
    (1 : Nat) ∉ (doInteraction (mkPlayer ⟨100, 100, 16, 16⟩)
      [⟨0, ⟨100, 100, 16, 16⟩, .letterPickUp 'J'⟩,
       ⟨1, ⟨100, 100, 16, 16⟩, .letterPickUp 'U'⟩]).2.2.2 :=
  C9_following_object_skipped 2 0 (mkPlayer ⟨100, 100, 16, 16⟩)
    [⟨0, ⟨100, 100, 16, 16⟩, .letterPickUp 'J'⟩,
     ⟨1, ⟨100, 100, 16, 16⟩, .letterPickUp 'U'⟩]
    ⟨0, ⟨100, 100, 16, 16⟩, .letterPickUp 'J'⟩
    ⟨1, ⟨100, 100, 16, 16⟩, .letterPickUp 'U'⟩
    rfl rfl (by decide) (by decide) (by decide) (by decide)

/-- C10: in MovingObject.update, for every non-positive horizontal velocity
the collision preview is the hitbox displaced exactly 1 unit to the left,
whatever the magnitude of velocity.x * delta, and whenever that 1-unit
probe is collision-free the full displacement velocity.x * delta is applied
with no further check (the x coordinate after the step is exactly
x + velocity.x * delta); only for positive velocity.x does the preview
cover the full displacement plus 1 unit. -/
theorem C10_left_probe_fixed (delta : Int) (s : MovingState) (statics : List Rect) :
    (s.velocity.x ≤ 0 →
      previewRectX delta s = s.rect.move (-1) 0 ∧
      (does_collide (s.rect.move (-1) 0) statics = false →
        (update delta s statics).rect.x = s.rect.x + s.velocity.x * delta)) ∧
    (0 < s.velocity.x →
      previewRectX delta s = s.rect.move (s.velocity.x * delta + 1) 0) := by
  constructor
  · intro hle
    have hnot : ¬ 0 < s.velocity.x := Int.not_lt.mpr hle
    have hpre : previewRectX delta s = s.rect.move (-1) 0 := by
      unfold previewRectX
      rw [if_neg hnot]
    refine ⟨hpre, ?_⟩
    intro hfree
    unfold update
    rw [stepY_rect_x]
    unfold stepX
    rw [hpre, hfree]
    simp [Rect.move]
  · intro hpos
    unfold previewRectX
    rw [if_pos hpos]

/-- C10, witness: an entity moving left with displacement -12 probes only one
unit left and, the probe being free, lands the full 12 units left. -/
theorem C10_witness :
    previewRectX 1 ⟨⟨0, 0, 10, 10⟩, ⟨-12, 0⟩, true, false⟩ = Rect.move ⟨0, 0, 10, 10⟩ (-1) 0 ∧
    (update 1 ⟨⟨0, 0, 10, 10⟩, ⟨-12, 0⟩, true, false⟩ []).rect.x = 0 + (-12) * 1 :=
  ⟨((C10_left_probe_fixed 1 ⟨⟨0, 0, 10, 10⟩, ⟨-12, 0⟩, true, false⟩ []).1 (by decide)).1,
   ((C10_left_probe_fixed 1 ⟨⟨0, 0, 10, 10⟩, ⟨-12, 0⟩, true, false⟩ []).1 (by decide)).2 (by decide)⟩
